/-
Verification of xctestrunner (src/xctestrunner/test_runner/xctestrun.py)
against its natural-language specification.

Shallow embedding conventions:
- The hierarchical plist document (external collaborator plist_util, not
  under src/) is modelled as the inductive PlistValue; field paths are
  represented pre-split on the colon delimiter, as List String.
- Filesystem and external-build effects are modelled through an explicit
  BuildEnv record (results of glob scans, mkdtemp, toolchain path
  discovery) and string path arithmetic; the plist serializer is an
  arbitrary function argument since serialization is declared out of
  scope by the spec.
- Python exceptions are modelled as Except / Option error values.
-/
import Mathlib

set_option maxRecDepth 10000

/-- Modelled from the spec: the hierarchical, property-list-like document
store (module plist_util, not under src/).  A document value is a scalar,
an array, or a mapping with string keys.  The null case models a Python
None stored in the in-memory dict before serialization. -/
inductive PlistValue where
  | string (s : String)
  | integer (n : Int)
  | boolean (b : Bool)
  | array (xs : List PlistValue)
  | dict (entries : List (String × PlistValue))
  | null

/-- Modelled from the spec: the lookup error raised by the document store
(ios_errors.PlistError, not under src/) when a path segment is absent or
the container at a segment is not navigable. -/
inductive PlistError where
  | keyNotFound
  | notNavigable
deriving DecidableEq

/-- Python dict assignment on the insertion-ordered mapping: replace the
value in place if the key exists, otherwise append the new entry. -/
def insertEntry (k : String) (v : PlistValue) :
    List (String × PlistValue) → List (String × PlistValue)
  | [] => [(k, v)]
  | (k', v') :: rest =>
      if k' = k then (k, v) :: rest else (k', v') :: insertEntry k v rest

/-- Lookup of a key in the insertion-ordered mapping. -/
def lookupEntry (k : String) : List (String × PlistValue) → Option PlistValue
  | [] => none
  | (k', v') :: rest => if k' = k then some v' else lookupEntry k rest

/-- Removal of a key from the mapping; none when the key is absent. -/
def deleteEntry (k : String) :
    List (String × PlistValue) → Option (List (String × PlistValue))
  | [] => none
  | (k', v') :: rest =>
      if k' = k then some rest
      else (deleteEntry k rest).map (fun r => (k', v') :: r)

/-- Modelled from the spec: plist_util GetPlistField resolution (not under
src/).  Walks the document segment by segment; fails with a lookup error
if a segment is absent or the container at a segment is not itself
navigable. -/
def getValueAt (v : PlistValue) : List String → Except PlistError PlistValue
  | [] => .ok v
  | k :: rest =>
      match v with
      | .dict es =>
          match lookupEntry k es with
          | some v' => getValueAt v' rest
          | none => .error .keyNotFound
      | _ => .error .notNavigable

/-- Modelled from the spec: plist_util SetPlistField (not under src/).
Writes the value at the resolved location, overwriting silently; the last
segment is created if absent, but intermediate containers are not
auto-created and a missing intermediate segment is a lookup error. -/
def setValueAt (v : PlistValue) : List String → PlistValue → Except PlistError PlistValue
  | [], newVal => .ok newVal
  | [k], newVal =>
      match v with
      | .dict es => .ok (.dict (insertEntry k newVal es))
      | _ => .error .notNavigable
  | k :: rest, newVal =>
      match v with
      | .dict es =>
          match lookupEntry k es with
          | some v0 => (setValueAt v0 rest newVal).map (fun v0' => .dict (insertEntry k v0' es))
          | none => .error .keyNotFound
      | _ => .error .notNavigable

/-- Modelled from the spec: plist_util DeletePlistField (not under src/).
Removes the field at the resolved location; absent paths are a lookup
error. -/
def deleteValueAt (v : PlistValue) : List String → Except PlistError PlistValue
  | [] => .error .notNavigable
  | [k] =>
      match v with
      | .dict es =>
          match deleteEntry k es with
          | some es' => .ok (.dict es')
          | none => .error .keyNotFound
      | _ => .error .notNavigable
  | k :: rest =>
      match v with
      | .dict es =>
          match lookupEntry k es with
          | some v0 => (deleteValueAt v0 rest).map (fun v0' => .dict (insertEntry k v0' es))
          | none => .error .keyNotFound
      | _ => .error .notNavigable

/-- Test types of xctestrunner (ios_constants.TestType; modelled from the
spec since ios_constants is not under src/). -/
inductive TestType where
  | xcuitest
  | xctest
  | logicTest
deriving DecidableEq

/-- SDK targets (ios_constants.SDK; modelled from the spec since
ios_constants is not under src/). -/
inductive SDK where
  | iphonesimulator
  | iphoneos
deriving DecidableEq

/-- Modelled from the spec: the supported SDK list of ios_constants. -/
def SUPPORTED_SDKS : List SDK := [.iphonesimulator, .iphoneos]

/-- Modelled from the spec: the supported test type list of
ios_constants. -/
def SUPPORTED_TEST_TYPES : List TestType := [.xcuitest, .xctest, .logicTest]

/-- The in-memory state of class XctestRun: the plist document wrapped by
the object, the single root key discovered at load time, and the raw
_test_type attribute (None when the caller gave no explicit type). -/
structure XctestRun where
  doc : PlistValue
  rootKey : String
  testTypeField : Option TestType

/-- XctestRun.__init__: loads the document and discovers the root key as
the first key of the root dict (the file always has only one key at the
root dict); none models the Python IndexError on a keyless document. -/
def XctestRun.load (doc : PlistValue) (testType : Option TestType) : Option XctestRun :=
  match doc with
  | .dict ((k, _) :: _) => some { doc := doc, rootKey := k, testTypeField := testType }
  | _ => none

/-- XctestRun.GetXctestrunField: resolves rootKey:field, returning the
value, or None when the plist lookup raises PlistError. -/
def XctestRun.GetXctestrunField (st : XctestRun) (field : List String) : Option PlistValue :=
  match getValueAt st.doc (st.rootKey :: field) with
  | .ok v => some v
  | .error _ => none

/-- XctestRun.HasXctestrunField: same resolution converted to a boolean;
a total function, so it never raises. -/
def XctestRun.HasXctestrunField (st : XctestRun) (field : List String) : Bool :=
  match getValueAt st.doc (st.rootKey :: field) with
  | .ok _ => true
  | .error _ => false

/-- XctestRun.SetXctestrunField: sets rootKey:field to the value. -/
def XctestRun.SetXctestrunField (st : XctestRun) (field : List String) (v : PlistValue) :
    Except PlistError XctestRun :=
  (setValueAt st.doc (st.rootKey :: field) v).map (fun d => { st with doc := d })

/-- XctestRun.DeleteXctestrunField: deletes rootKey:field. -/
def XctestRun.DeleteXctestrunField (st : XctestRun) (field : List String) :
    Except PlistError XctestRun :=
  (deleteValueAt st.doc (st.rootKey :: field)).map (fun d => { st with doc := d })

/-- The test_type property: when _test_type is unset it is inferred from
the presence of the UITargetAppPath field and the inferred value is
stored back into _test_type (memoized). -/
def XctestRun.testType (st : XctestRun) : TestType × XctestRun :=
  match st.testTypeField with
  | some t => (t, st)
  | none =>
      if st.HasXctestrunField ["UITargetAppPath"] then
        (.xcuitest, { st with testTypeField := some .xcuitest })
      else
        (.xctest, { st with testTypeField := some .xctest })

/-- Python truthiness of a plist value, used by the env-var setters via
the `if not test_env_vars` reset. -/
def pyFalsy : PlistValue → Bool
  | .string s => s.isEmpty
  | .integer n => n == 0
  | .boolean b => !b
  | .array xs => xs.isEmpty
  | .dict es => es.isEmpty
  | .null => true

/-- Iterating `for key, value in env_vars.items(): d[key] = value` over
the supplied mapping, starting from a base mapping. -/
def mergeEntries (base : List (String × PlistValue)) (m : List (String × String)) :
    List (String × PlistValue) :=
  m.foldl (fun acc kv => insertEntry kv.1 (.string kv.2) acc) base

/-- The existing field value coerced like the source does: absent or
falsy becomes the empty dict, a non-falsy dict is kept, anything else
would raise a Python TypeError on item assignment (modelled as none). -/
def envBase : Option PlistValue → Option (List (String × PlistValue))
  | none => some []
  | some v =>
      if pyFalsy v then some []
      else
        match v with
        | .dict es => some es
        | _ => none

/-- XctestRun.SetTestEnvVars: no-op on an empty mapping, otherwise merges
the supplied variables into the existing EnvironmentVariables field.
none models a raised Python exception. -/
def XctestRun.SetTestEnvVars (st : XctestRun) (envVars : List (String × String)) :
    Option XctestRun :=
  if envVars.isEmpty then some st
  else
    match envBase (st.GetXctestrunField ["EnvironmentVariables"]) with
    | none => none
    | some base =>
        match st.SetXctestrunField ["EnvironmentVariables"] (.dict (mergeEntries base envVars)) with
        | .ok st' => some st'
        | .error _ => none

/-- XctestRun.SetTestArgs: no-op on an empty list, otherwise sets the
CommandLineArguments field directly (wholesale). -/
def XctestRun.SetTestArgs (st : XctestRun) (args : List String) :
    Except PlistError XctestRun :=
  if args.isEmpty then .ok st
  else st.SetXctestrunField ["CommandLineArguments"] (.array (args.map .string))

/-- XctestRun.SetAppUnderTestArgs: no-op on an empty list; the target
field is UITargetAppCommandLineArguments only when the raw _test_type
attribute equals XCUITEST, otherwise CommandLineArguments; the field is
set wholesale. -/
def XctestRun.SetAppUnderTestArgs (st : XctestRun) (args : List String) :
    Except PlistError XctestRun :=
  if args.isEmpty then .ok st
  else
    if st.testTypeField = some TestType.xcuitest then
      st.SetXctestrunField ["UITargetAppCommandLineArguments"] (.array (args.map .string))
    else
      st.SetXctestrunField ["CommandLineArguments"] (.array (args.map .string))

/-- Errors of the generation orchestrator: IllegalArgumentError from
argument validation, XctestrunError from artifact scanning, PlistError
surfaced from the document store, a malformed harvested document
(Python IndexError on root-key discovery), and other raised Python
errors such as joining a None path. -/
inductive GenError where
  | illegalArgument (msg : String)
  | xctestrunError (msg : String)
  | plistError (e : PlistError)
  | docLoadError
  | pyError (msg : String)
deriving DecidableEq

/-- Lifts a document-store failure into the orchestrator error type. -/
def plift {α : Type} : Except PlistError α → Except GenError α
  | .ok a => .ok a
  | .error e => .error (.plistError e)

/-- Computable check that an Except value is a success. -/
def exceptIsOk {ε α : Type} : Except ε α → Bool
  | .ok _ => true
  | .error _ => false

/-- os.path.basename restricted to slash-separated paths: the characters
after the last slash. -/
def lastComponent (cs : List Char) : List Char :=
  cs.foldl (fun acc c => if c = '/' then [] else acc ++ [c]) []

/-- os.path.basename on strings. -/
def basename (s : String) : String := String.mk (lastComponent s.data)

/-- os.path.join for the shapes used by the source (second component
relative, no trailing slash on the first). -/
def pathJoin (a b : String) : String := a ++ "/" ++ b

/-- os.path.splitext base part restricted to the names used here: the
characters before the last dot, or the whole string when it has no
dot. -/
def splitextBase (cs : List Char) : List Char :=
  let revAfter := cs.reverse.takeWhile (fun c => c ≠ '.')
  if revAfter.length = cs.length then cs
  else cs.take (cs.length - revAfter.length - 1)

/-- The state of class XctestRunFactory after __init__: the constructor
arguments plus the derived _test_name and the stored signing options. -/
structure XctestRunFactory where
  appUnderTestDir : Option String
  testBundleDir : String
  testName : String
  sdk : SDK
  testType : TestType
  signingOptions : List (String × String)
  workDir : Option String
deriving DecidableEq

/-- Message logged by __init__ about signing options on a non-device
sdk. -/
def signingInfoMsg : String :=
  "The signing options only works on sdk iphoneos, but current sdk is not iphoneos"

/-- IllegalArgumentError message of _ValidateArguments for an
unsupported sdk. -/
def sdkNotSupportedMsg : String := "The sdk is not supported."

/-- IllegalArgumentError message of _ValidateArguments for an
unsupported test type. -/
def testTypeNotSupportedMsg : String := "The test type is not supported."

/-- IllegalArgumentError message of _ValidateArguments for pairing a
logic test with a non-simulator sdk. -/
def logicTestSdkMsg : String :=
  "Only support running logic test on sdk iphonesimulator."

/-- Outcome of XctestRunFactory.__init__: the constructed factory or the
validation error, the info messages logged on the way, and the list of
filesystem mutations performed (always empty: the source constructor
touches no files; mutation happens only in GenerateXctestrun). -/
structure InitResult where
  result : Except GenError XctestRunFactory
  log : List String
  fsMutations : List String

/-- Python truthiness of the optional signing-options mapping. -/
def signingFalsy : Option (List (String × String)) → Bool
  | none => true
  | some l => l.isEmpty

/-- XctestRunFactory.__init__ followed by its trailing _ValidateArguments
call: stores the arguments, keeps the signing options only on sdk
iphoneos (logging the info message exactly when the supplied options are
falsy, as the source condition `if not signing_options` does), and then
validates sdk, test type, and the logic-test/simulator pairing. -/
def XctestRunFactory.init (appUnderTestDir : Option String) (testBundleDir : String)
    (sdk : SDK) (testType : TestType)
    (signingOptions : Option (List (String × String)))
    (workDir : Option String) : InitResult :=
  let log :=
    if sdk = SDK.iphoneos then []
    else if signingFalsy signingOptions then [signingInfoMsg] else []
  let storedSigning :=
    if sdk = SDK.iphoneos then signingOptions.getD [] else []
  let f : XctestRunFactory :=
    { appUnderTestDir := appUnderTestDir
      testBundleDir := testBundleDir
      testName := String.mk (splitextBase (basename testBundleDir).data)
      sdk := sdk
      testType := testType
      signingOptions := storedSigning
      workDir := workDir }
  let validated : Except GenError XctestRunFactory :=
    if sdk ∉ SUPPORTED_SDKS then .error (.illegalArgument sdkNotSupportedMsg)
    else if testType ∉ SUPPORTED_TEST_TYPES then .error (.illegalArgument testTypeNotSupportedMsg)
    else if testType = TestType.logicTest ∧ sdk ≠ SDK.iphonesimulator then
      .error (.illegalArgument logicTestSdkMsg)
    else .ok f
  { result := validated, log := log, fsMutations := [] }

/-- The results of the external collaborators during one generation run:
the tempfile.mkdtemp result, the glob scan results over the throwaway
build products tree, the content of the first harvested configuration
document, and the toolchain path discovery functions (xcode_info_util,
external per the spec). -/
structure BuildEnv where
  mkdtempResult : String
  generatedXctrunnerApps : List String
  generatedXctestrunFiles : List String
  buildDocContent : PlistValue
  xctestToolPath : SDK → String
  sdkPlatformPath : SDK → String

/-- The portable placeholder token TESTROOT_RELATIVE_PATH. -/
def testrootToken : String := "__TESTROOT__"

/-- XctestrunError message for a missing harvested XCTRunner app. -/
def noRunnerMsg : String :=
  "No generated XCTRunner app was found in the dummy project build products dir."

/-- XctestrunError message for multiple harvested XCTRunner apps. -/
def multiRunnerMsg : String :=
  "More than one XCTRunner app were found in the dummy project build products dir."

/-- XctestrunError message for a missing harvested xctestrun file. -/
def noXctestrunMsg : String :=
  "No generated xctestrun file was found in the dummy project build products dir."

/-- XctestRunFactory._GenerateXctestrunFileForXcuitest, after the
external build-for-testing step: scan for exactly one runner app (zero
and more than one are both errors), relocate it and the test bundle,
scan for a generated xctestrun file (only the zero case is checked;
the first match is taken), and patch TestHostPath, UITargetAppPath and
TestBundlePath, deleting the internal test bundle name field. -/
def genXcuitest (aut : Option String) (tb testRoot : String) (env : BuildEnv) :
    Except GenError XctestRun :=
  if env.generatedXctrunnerApps.isEmpty then
    .error (.xctestrunError noRunnerMsg)
  else if env.generatedXctrunnerApps.length > 1 then
    .error (.xctestrunError multiRunnerMsg)
  else
    let xctrunnerAppDir := pathJoin testRoot (basename (env.generatedXctrunnerApps.headD ""))
    let tb2 := pathJoin (pathJoin xctrunnerAppDir "PlugIns") (basename tb)
    if env.generatedXctestrunFiles.isEmpty then
      .error (.xctestrunError noXctestrunMsg)
    else
      match XctestRun.load env.buildDocContent (some .xcuitest) with
      | none => .error .docLoadError
      | some obj => do
          let obj ← plift (obj.SetXctestrunField ["TestHostPath"] (.string xctrunnerAppDir))
          let obj ← plift (obj.SetXctestrunField ["UITargetAppPath"]
            (match aut with | some a => .string a | none => .null))
          let obj ← plift (obj.SetXctestrunField ["TestBundlePath"] (.string tb2))
          let obj ← plift (obj.DeleteXctestrunField
            ["TestingEnvironmentVariables", "IDEiPhoneInternalTestBundleName"])
          .ok obj

/-- XctestRunFactory._GenerateXctestrunFileForXctest, after the external
build-for-testing step: relocate the test bundle into the app under
test PlugIns directory (joining with a None app under test raises),
scan for a generated xctestrun file (only the zero case is checked; the
first match is taken), and patch TestBundlePath. -/
def genXctest (aut : Option String) (tb : String) (env : BuildEnv) :
    Except GenError XctestRun :=
  match aut with
  | none => .error (.pyError "os.path.join on None app under test dir")
  | some autDir =>
      let tb2 := pathJoin (pathJoin autDir "PlugIns") (basename tb)
      if env.generatedXctestrunFiles.isEmpty then
        .error (.xctestrunError noXctestrunMsg)
      else
        match XctestRun.load env.buildDocContent (some .xctest) with
        | none => .error .docLoadError
        | some obj => plift (obj.SetXctestrunField ["TestBundlePath"] (.string tb2))

/-- XctestRunFactory._GenerateXctestrunFileForLogicTest: no build step;
creates the document directly with an empty dict under the test bundle
base name (before the first dot), then patches TestBundlePath,
TestHostPath (the xctest tool of the sdk) and the
TestingEnvironmentVariables dyld mapping. -/
def genLogicTest (tb : String) (sdk : SDK) (env : BuildEnv) :
    Except GenError XctestRun :=
  let testBundleName := String.mk ((basename tb).data.takeWhile (fun c => c ≠ '.'))
  let doc := PlistValue.dict [(testBundleName, .dict [])]
  match XctestRun.load doc (some .logicTest) with
  | none => .error .docLoadError
  | some obj => do
      let obj ← plift (obj.SetXctestrunField ["TestBundlePath"] (.string tb))
      let obj ← plift (obj.SetXctestrunField ["TestHostPath"] (.string (env.xctestToolPath sdk)))
      let dyldFrameworkPath := pathJoin (env.sdkPlatformPath sdk) "Developer/Library/Frameworks"
      let obj ← plift (obj.SetXctestrunField ["TestingEnvironmentVariables"]
        (.dict [("DYLD_FRAMEWORK_PATH", .string dyldFrameworkPath),
                ("DYLD_LIBRARY_PATH", .string dyldFrameworkPath)]))
      .ok obj

/-- Left-to-right, non-overlapping replacement of pattern p by t in s,
with explicit fuel so that the definition is structurally recursive and
kernel-reducible; correct whenever fuel is at least the length of s. -/
def replaceAllAux (p t : List Char) : Nat → List Char → List Char
  | 0, _ => []
  | fuel + 1, s =>
      match s with
      | [] => []
      | c :: rest =>
          if p.isPrefixOf s then t ++ replaceAllAux p t fuel (s.drop p.length)
          else c :: replaceAllAux p t fuel rest

/-- Python str.replace on character lists (an empty pattern leaves the
string unchanged; the source never replaces an empty pattern). -/
def replaceAll (p t s : List Char) : List Char :=
  if p.isEmpty then s else replaceAllAux p t s.length s

/-- Python str.replace on strings: the content with every occurrence of
the pattern replaced. -/
def replaceAllStr (s pat rep : String) : String :=
  String.mk (replaceAll pat.data rep.data s.data)

/-- The observable outcome of one GenerateXctestrun run: the produced
XctestRun object, the final text content of the xctestrun file after the
portability substitution, and the directory layout facts. -/
structure GenResult where
  obj : XctestRun
  content : String
  testRootDir : String
  workDir : String
  xctestrunFilePath : String

/-- The work directory of a generation run: the caller supplied
directory when given, else the mkdtemp result. -/
def genWorkDir (f : XctestRunFactory) (env : BuildEnv) : String :=
  f.workDir.getD env.mkdtempResult

/-- The canonical root TEST_ROOT inside the work directory. -/
def genTestRoot (f : XctestRunFactory) (env : BuildEnv) : String :=
  pathJoin (genWorkDir f env) "TEST_ROOT"

/-- The mode dispatch of GenerateXctestrun after the app under test and
test bundle have been relocated into the canonical root. -/
def genPipeline (f : XctestRunFactory) (env : BuildEnv) : Except GenError XctestRun :=
  let testRoot := genTestRoot f env
  let aut := f.appUnderTestDir.map (fun d => pathJoin testRoot (basename d))
  let tb := pathJoin testRoot (basename f.testBundleDir)
  match f.testType with
  | .xcuitest => genXcuitest aut tb testRoot env
  | .xctest => genXctest aut tb env
  | .logicTest => genLogicTest tb f.sdk env

/-- XctestRunFactory.GenerateXctestrun for a first call: establish the
work dir (caller supplied or mkdtemp), the TEST_ROOT canonical root,
relocate the app under test and test bundle into it, dispatch to the
mode pipeline, and finally post-process the serialized document text by
blindly replacing every occurrence of the TEST_ROOT absolute path with
the portable placeholder token.  The serializer of the document store is
an explicit collaborator argument. -/
def GenerateXctestrun (f : XctestRunFactory) (env : BuildEnv)
    (serialize : PlistValue → String) : Except GenError GenResult :=
  match genPipeline f env with
  | .error e => .error e
  | .ok obj =>
      .ok { obj := obj
            content := replaceAllStr (serialize obj.doc) (genTestRoot f env) testrootToken
            testRootDir := genTestRoot f env
            workDir := genWorkDir f env
            xctestrunFilePath := pathJoin (genTestRoot f env) "xctestrun.plist" }

/-- A prefix of an appended list is a prefix of the left part or extends
it. -/
theorem prefix_append_split {α : Type} {v A B : List α} (h : v <+: A ++ B) :
    v <+: A ∨ A <+: v := by
  obtain ⟨u, hu⟩ := h
  rcases List.append_eq_append_iff.mp hu with ⟨x, hx1, _⟩ | ⟨y, hy1, _⟩
  · exact Or.inl ⟨x, hx1.symm⟩
  · exact Or.inr ⟨y, hy1.symm⟩

/-- A suffix of an appended list is a suffix of the right part or is a
suffix of the left part followed by the whole right part. -/
theorem suffix_append_split {α : Type} {v A B : List α} (h : v <:+ A ++ B) :
    v <:+ B ∨ ∃ a', a' <:+ A ∧ v = a' ++ B := by
  obtain ⟨u, hu⟩ := h
  rcases List.append_eq_append_iff.mp hu with ⟨x, hx1, hx2⟩ | ⟨y, _, hy2⟩
  · exact Or.inr ⟨x, ⟨u, hx1.symm⟩, hx2⟩
  · exact Or.inl ⟨y, hy2.symm⟩

/-- An occurrence inside an appended list lies in the left part, in the
right part, or covers the head of the right part. -/
theorem infix_append_cases {α : Type} {t A B : List α} (h : t <:+: A ++ B) :
    t <:+: A ∨ t <:+: B ∨ ∃ c, B.head? = some c ∧ c ∈ t := by
  obtain ⟨s, u, hE⟩ := h
  rw [List.append_assoc] at hE
  rcases List.append_eq_append_iff.mp hE with ⟨x, hx1, hx2⟩ | ⟨y, _, hy2⟩
  · rcases List.append_eq_append_iff.mp hx2 with ⟨z, hz1, _⟩ | ⟨w, hw1, hw2⟩
    · refine Or.inl ⟨s, z, ?_⟩
      rw [hx1, hz1, ← List.append_assoc]
    · match w, hw1, hw2 with
      | [], hw1, _ =>
          refine Or.inl ⟨s, [], ?_⟩
          have hx : x = t := by simpa using hw1.symm
          rw [List.append_nil, hx1, hx]
      | w0 :: w1, hw1, hw2 =>
          refine Or.inr (Or.inr ⟨w0, ?_, ?_⟩)
          · rw [hw2]; rfl
          · rw [hw1]
            exact List.mem_append.mpr (Or.inr (List.mem_cons_self w0 w1))
  · refine Or.inr (Or.inl ⟨y, u, ?_⟩)
    rw [hy2, List.append_assoc]

/-- The tail of a nonempty suffix is still a suffix. -/
theorem suffix_of_cons_suffix {α : Type} {v0 : α} {v1 p : List α}
    (h : v0 :: v1 <:+ p) : v1 <:+ p := by
  obtain ⟨u, hu⟩ := h
  exact ⟨u ++ [v0], by rw [List.append_assoc]; exact hu⟩

/-- A list that is a prefix of one list and a suffix of another yields an
occurrence inside the latter. -/
theorem infix_of_prefix_of_suffix {α : Type} {t v p : List α}
    (h1 : t <+: v) (h2 : v <:+ p) : t <:+: p := by
  obtain ⟨a, ha⟩ := h1
  obtain ⟨b, hb⟩ := h2
  exact ⟨b, a, by rw [← hb, ← ha, List.append_assoc]⟩

/-- Core inversion for replaceAllAux: a nonempty suffix of the pattern
that occurs as a prefix of the replaced output already occurred as a
prefix of the input, provided no nonempty suffix of the pattern is a
prefix of the replacement token and the token does not occur inside the
pattern. -/
theorem replaceAllAux_prefix_rev (p t : List Char)
    (h3 : ¬ t <:+: p)
    (h4 : ∀ w, w ≠ [] → w <:+ p → ¬ w <+: t) :
    ∀ fuel s v, s.length ≤ fuel → v ≠ [] → v <:+ p →
      v <+: replaceAllAux p t fuel s → v <+: s := by
  intro fuel
  induction fuel with
  | zero =>
      intro s v _ hvne _ hvp
      rw [replaceAllAux] at hvp
      exact absurd (List.prefix_nil.mp hvp) hvne
  | succ n ih =>
      intro s v hlen hvne hvs hvp
      match s with
      | [] =>
          rw [replaceAllAux] at hvp
          exact absurd (List.prefix_nil.mp hvp) hvne
      | c :: rest =>
          by_cases hpre : p.isPrefixOf (c :: rest)
          · rw [replaceAllAux, if_pos hpre] at hvp
            rcases prefix_append_split hvp with hvt | htv
            · exact absurd hvt (h4 v hvne hvs)
            · exact absurd (infix_of_prefix_of_suffix htv hvs) h3
          · rw [replaceAllAux, if_neg hpre] at hvp
            match v, hvne with
            | v0 :: v1, _ =>
                rw [List.cons_prefix_cons] at hvp
                obtain ⟨hv0, hv1⟩ := hvp
                cases v1 with
                | nil =>
                    rw [List.cons_prefix_cons]
                    exact ⟨hv0, List.nil_prefix⟩
                | cons w ws =>
                    have hs' : (w :: ws) <:+ p := suffix_of_cons_suffix hvs
                    have hr : (w :: ws) <+: rest :=
                      ih rest (w :: ws) (by simpa using Nat.le_of_succ_le_succ hlen)
                        (by simp) hs' hv1
                    rw [List.cons_prefix_cons]
                    exact ⟨hv0, hr⟩

/-- After replacing every occurrence of the pattern by the token, the
pattern does not occur in the output, provided the head of the pattern
is not a character of the token, the token does not occur inside the
pattern, and no nonempty suffix of the pattern is a prefix of the
token. -/
theorem replaceAllAux_no_occ (p t : List Char) (hd : Char) (ptl : List Char)
    (hp : p = hd :: ptl) (hdt : hd ∉ t)
    (h3 : ¬ t <:+: p) (h4 : ∀ w, w ≠ [] → w <:+ p → ¬ w <+: t) :
    ∀ fuel s, s.length ≤ fuel → ¬ p <:+: replaceAllAux p t fuel s := by
  subst hp
  intro fuel
  induction fuel with
  | zero =>
      intro s _ hocc
      rw [replaceAllAux] at hocc
      rw [List.infix_nil] at hocc
      exact absurd hocc (by simp)
  | succ n ih =>
      intro s hlen hocc
      match s with
      | [] =>
          rw [replaceAllAux] at hocc
          rw [List.infix_nil] at hocc
          exact absurd hocc (by simp)
      | c :: rest =>
          by_cases hpre : (hd :: ptl).isPrefixOf (c :: rest)
          · rw [replaceAllAux, if_pos hpre] at hocc
            obtain ⟨a, b, hE⟩ := hocc
            rw [List.append_assoc] at hE
            have hdroplen : ((c :: rest).drop (hd :: ptl).length).length ≤ n := by
              have hs : (c :: rest).length ≤ n + 1 := hlen
              simp only [List.length_drop]
              simp only [List.length_cons] at hs ⊢
              omega
            rcases List.append_eq_append_iff.mp hE with ⟨x, hx1, hx2⟩ | ⟨y, _, hy2⟩
            · match x, hx1, hx2 with
              | [], _, hx2 =>
                  refine ih _ hdroplen ⟨[], b, ?_⟩
                  simpa using hx2
              | x0 :: x1, hx1, hx2 =>
                  have hx0t : x0 ∈ t := by
                    rw [hx1]
                    exact List.mem_append.mpr (Or.inr (List.mem_cons_self x0 x1))
                  rcases List.append_eq_append_iff.mp hx2 with ⟨z, hz1, _⟩ | ⟨w, hw1, _⟩
                  · injection hz1 with hz10 _
                    exact hdt (by rw [← hz10]; exact hx0t)
                  · injection hw1 with hw10 _
                    exact hdt (by rw [hw10]; exact hx0t)
            · refine ih _ hdroplen ⟨y, b, ?_⟩
              rw [List.append_assoc]
              exact hy2.symm
          · rw [replaceAllAux, if_neg hpre] at hocc
            obtain ⟨a, b, hE⟩ := hocc
            match a, hE with
            | [], hE =>
                rw [List.nil_append] at hE
                injection hE with hE0 hE1
                cases ptl with
                | nil =>
                    refine hpre ?_
                    rw [List.isPrefixOf_iff_prefix, hE0, List.cons_prefix_cons]
                    exact ⟨rfl, List.nil_prefix⟩
                | cons q0 q1 =>
                    have hsuf : (q0 :: q1) <:+ (hd :: q0 :: q1) := ⟨[hd], rfl⟩
                    have hr : (q0 :: q1) <+: rest :=
                      replaceAllAux_prefix_rev (hd :: q0 :: q1) t h3 h4 n rest (q0 :: q1)
                        (by simpa using Nat.le_of_succ_le_succ hlen)
                        (by simp) hsuf ⟨b, hE1⟩
                    refine hpre ?_
                    rw [List.isPrefixOf_iff_prefix, hE0, List.cons_prefix_cons]
                    exact ⟨rfl, hr⟩
            | a0 :: a1, hE =>
                injection hE with _ hE1
                exact ih rest (by simpa using Nat.le_of_succ_le_succ hlen) ⟨a1, b, hE1⟩

/-- replaceAll eliminates every occurrence of the pattern under the three
junction conditions. -/
theorem replaceAll_no_occ (p t : List Char) (hd : Char) (ptl : List Char)
    (hp : p = hd :: ptl) (hdt : hd ∉ t)
    (h3 : ¬ t <:+: p) (h4 : ∀ w, w ≠ [] → w <:+ p → ¬ w <+: t)
    (s : List Char) : ¬ p <:+: replaceAll p t s := by
  rw [replaceAll, if_neg (by rw [hp]; simp)]
  exact replaceAllAux_no_occ p t hd ptl hp hdt h3 h4 s.length s le_rfl

/-- Specialization to the TEST_ROOT layout: for an absolute work
directory whose path does not contain the placeholder token, the
canonical root path does not survive the blind substitution. -/
theorem testroot_replace_no_occ (W0 s : List Char)
    (hT : ¬ ("__TESTROOT__".data <:+: ('/' :: W0))) :
    ¬ (('/' :: W0 ++ "/TEST_ROOT".data) <:+:
       replaceAll ('/' :: W0 ++ "/TEST_ROOT".data) "__TESTROOT__".data s) := by
  apply replaceAll_no_occ _ _ '/' (W0 ++ "/TEST_ROOT".data) rfl (by decide)
  · intro hinf
    have hx : "__TESTROOT__".data <:+: ('/' :: W0) ++ "/TEST_ROOT".data := by
      rw [List.cons_append]; exact hinf
    rcases infix_append_cases hx with h | h | ⟨c, hc1, hc2⟩
    · exact hT h
    · exact absurd h.length_le (by decide)
    · have h2 : ("/TEST_ROOT".data).head? = some '/' := rfl
      rw [h2] at hc1
      have hc : c = '/' := (Option.some.inj hc1).symm
      subst hc
      exact absurd hc2 (by decide)
  · intro w hne hws hwt
    have hws' : w <:+ ('/' :: W0) ++ "/TEST_ROOT".data := by
      rw [List.cons_append]; exact hws
    rcases suffix_append_split hws' with h | ⟨a', _, hw⟩
    · have hmem : w ∈ ("/TEST_ROOT".data).tails := (List.mem_tails w _).mpr h
      have hlem : ∀ u ∈ ("/TEST_ROOT".data).tails,
          u = [] ∨ ¬ u <+: "__TESTROOT__".data := by decide
      rcases hlem w hmem with h0 | h0
      · exact hne h0
      · exact h0 hwt
    · have hsl : ('/' : Char) ∈ "__TESTROOT__".data := by
        refine hwt.subset ?_
        rw [hw]
        exact List.mem_append.mpr (Or.inr (by decide))
      exact absurd hsl (by decide)

/-- Unpacks a String append at the character-list level. -/
theorem string_data_append (a b : String) : (a ++ b).data = a.data ++ b.data := rfl

/-- The character list of the canonical root path, for an absolute work
directory. -/
theorem genTestRoot_data (f : XctestRunFactory) (env : BuildEnv) (W0 : List Char)
    (hW : (genWorkDir f env).data = '/' :: W0) :
    (genTestRoot f env).data = '/' :: W0 ++ "/TEST_ROOT".data := by
  show ((genWorkDir f env ++ "/") ++ "TEST_ROOT").data = _
  rw [string_data_append, string_data_append, List.append_assoc, hW]
  rfl

/-- C1 (amended). After GenerateXctestrun completes, the final file
content is exactly the serialization of the fully patched document with
every literal occurrence of the canonical root path blindly replaced by
the token __TESTROOT__ (the substitution runs after all path bearing
fields are set), and, provided the work directory is an absolute path
that does not itself contain the placeholder token, the resulting text
contains no occurrence of the canonical root absolute path. -/
theorem GenerateXctestrun_portable (f : XctestRunFactory) (env : BuildEnv)
    (serialize : PlistValue → String) (r : GenResult) (W0 : List Char)
    (hok : GenerateXctestrun f env serialize = .ok r)
    (hW : (genWorkDir f env).data = '/' :: W0)
    (hT : ¬ ("__TESTROOT__".data <:+: ('/' :: W0))) :
    r.content = replaceAllStr (serialize r.obj.doc) r.testRootDir testrootToken ∧
    ¬ (r.testRootDir.data <:+: r.content.data) := by
  unfold GenerateXctestrun at hok
  rcases hpig : genPipeline f env with e | obj
  · rw [hpig] at hok
    exact absurd hok (by simp)
  · rw [hpig] at hok
    have hr := Except.ok.inj hok
    subst hr
    refine ⟨rfl, ?_⟩
    show ¬ ((genTestRoot f env).data <:+:
      (replaceAllStr (serialize obj.doc) (genTestRoot f env) testrootToken).data)
    have hcd : (replaceAllStr (serialize obj.doc) (genTestRoot f env) testrootToken).data
        = replaceAll (genTestRoot f env).data "__TESTROOT__".data (serialize obj.doc).data := rfl
    rw [hcd, genTestRoot_data f env W0 hW]
    exact testroot_replace_no_occ W0 (serialize obj.doc).data hT

/-- A generation run whose caller supplied work directory contains the
placeholder token. -/
def c1cxFactory : XctestRunFactory :=
  { appUnderTestDir := none
    testBundleDir := "/prebuilt/MyTests.xctest"
    testName := "MyTests"
    sdk := .iphonesimulator
    testType := .logicTest
    signingOptions := []
    workDir := some "/a__TESTROOT__b" }

/-- External collaborator results for the counterexample run. -/
def c1cxEnv : BuildEnv :=
  { mkdtempResult := "/tmp/t"
    generatedXctrunnerApps := []
    generatedXctestrunFiles := []
    buildDocContent := .dict []
    xctestToolPath := fun _ => "/x"
    sdkPlatformPath := fun _ => "/p" }

/-- C1 counterexample: a completed generation run (caller work directory
/a__TESTROOT__b, serialized document text containing the path
/a/a__TESTROOT__b/TEST_ROOTb/TEST_ROOT) whose final document text still
contains the canonical root absolute path /a__TESTROOT__b/TEST_ROOT:
the blind substitution itself reassembles an occurrence of the root
path, so the claim that the serialized document never contains an
absolute path under the working directory is false as stated. -/
theorem testroot_substitution_counterexample :
    (GenerateXctestrun c1cxFactory c1cxEnv
        (fun _ => "/a/a__TESTROOT__b/TEST_ROOTb/TEST_ROOT")).map
      (fun r => (r.testRootDir, r.content))
      = Except.ok ("/a__TESTROOT__b/TEST_ROOT", "/a__TESTROOT__b/TEST_ROOT") ∧
    ("/a__TESTROOT__b/TEST_ROOT".data <:+: "/a__TESTROOT__b/TEST_ROOT".data) :=
  ⟨rfl, List.infix_rfl⟩

/-- A well-behaved generation run used to witness the amended C1
theorem. -/
def c1wFactory : XctestRunFactory :=
  { appUnderTestDir := none
    testBundleDir := "/prebuilt/MyTests.xctest"
    testName := "MyTests"
    sdk := .iphonesimulator
    testType := .logicTest
    signingOptions := []
    workDir := some "/w" }

/-- External collaborator results for the witness run. -/
def c1wEnv : BuildEnv :=
  { mkdtempResult := "/tmp/t"
    generatedXctrunnerApps := []
    generatedXctestrunFiles := []
    buildDocContent := .dict []
    xctestToolPath := fun _ => "/Xcode/xctest"
    sdkPlatformPath := fun _ => "/Xcode/Platform" }

/-- A serializer for the witness run whose output mentions the absolute
bundle path under the canonical root. -/
def c1wSerialize : PlistValue → String := fun _ => "k /w/TEST_ROOT/MyTests.xctest v"

/-- The result of the witness generation run. -/
def c1wRes : GenResult :=
  { obj :=
      { doc := .dict [("MyTests", .dict
          [("TestBundlePath", .string "/w/TEST_ROOT/MyTests.xctest"),
           ("TestHostPath", .string "/Xcode/xctest"),
           ("TestingEnvironmentVariables", .dict
             [("DYLD_FRAMEWORK_PATH", .string "/Xcode/Platform/Developer/Library/Frameworks"),
              ("DYLD_LIBRARY_PATH", .string "/Xcode/Platform/Developer/Library/Frameworks")])])]
        rootKey := "MyTests"
        testTypeField := some .logicTest }
    content := "k __TESTROOT__/MyTests.xctest v"
    testRootDir := "/w/TEST_ROOT"
    workDir := "/w"
    xctestrunFilePath := "/w/TEST_ROOT/xctestrun.plist" }

/-- Witness for the amended C1 theorem at a concrete run. -/
theorem GenerateXctestrun_portable_witness :
    GenerateXctestrun c1wFactory c1wEnv c1wSerialize = .ok c1wRes ∧
    (genWorkDir c1wFactory c1wEnv).data = '/' :: "w".data ∧
    (¬ ("__TESTROOT__".data <:+: ('/' :: "w".data))) ∧
    (c1wRes.content = replaceAllStr (c1wSerialize c1wRes.obj.doc) c1wRes.testRootDir testrootToken ∧
     ¬ (c1wRes.testRootDir.data <:+: c1wRes.content.data)) :=
  ⟨rfl, rfl, by decide,
   GenerateXctestrun_portable c1wFactory c1wEnv c1wSerialize c1wRes "w".data rfl rfl (by decide)⟩

/-- Lookup after a dict insert: the inserted key reads back the new
value, other keys are unchanged. -/
theorem lookupEntry_insertEntry (k k' : String) (v : PlistValue)
    (l : List (String × PlistValue)) :
    lookupEntry k (insertEntry k' v l) = if k' = k then some v else lookupEntry k l := by
  induction l with
  | nil => simp only [insertEntry, lookupEntry]
  | cons hd tl ih =>
      obtain ⟨hk, hv⟩ := hd
      simp only [insertEntry]
      by_cases h1 : hk = k'
      · rw [if_pos h1]
        simp only [lookupEntry]
        by_cases h2 : k' = k
        · rw [if_pos h2, if_pos h2]
        · rw [if_neg h2, if_neg h2, if_neg (by rw [h1]; exact h2)]
      · rw [if_neg h1]
        simp only [lookupEntry]
        by_cases h2 : hk = k
        · have hknk : ¬ (k' = k) := fun hc => h1 (by rw [h2, hc])
          rw [if_pos h2, if_neg hknk, if_pos h2]
        · rw [if_neg h2, if_neg h2, ih]

/-- An insert never empties the mapping. -/
theorem insertEntry_ne_nil (k : String) (v : PlistValue)
    (l : List (String × PlistValue)) : insertEntry k v l ≠ [] := by
  cases l with
  | nil => simp [insertEntry]
  | cons hd tl =>
      obtain ⟨hk, hv⟩ := hd
      simp only [insertEntry]
      by_cases h : hk = k
      · rw [if_pos h]; simp
      · rw [if_neg h]; simp

/-- Merging into a nonempty mapping keeps it nonempty. -/
theorem mergeEntries_ne_nil (m : List (String × String)) :
    ∀ base, base ≠ [] → mergeEntries base m ≠ [] := by
  induction m with
  | nil => intro base hb; simpa [mergeEntries] using hb
  | cons a m ih =>
      intro base _
      have h1 : insertEntry a.1 (.string a.2) base ≠ [] := insertEntry_ne_nil _ _ _
      simpa [mergeEntries] using ih _ h1

/-- The value of a key after iterating Python dict assignment over the
supplied items: the last supplied binding wins. -/
def lookupLast (k : String) : List (String × String) → Option String
  | [] => none
  | (k', v) :: rest =>
      match lookupLast k rest with
      | some r => some r
      | none => if k' = k then some v else none

/-- Lookup in a merged mapping: the supplied items take precedence over
the base mapping. -/
theorem lookupEntry_mergeEntries (k : String) (m : List (String × String)) :
    ∀ base, lookupEntry k (mergeEntries base m) =
      match lookupLast k m with
      | some v => some (.string v)
      | none => lookupEntry k base := by
  induction m with
  | nil => intro base; simp [mergeEntries, lookupLast]
  | cons a m ih =>
      intro base
      obtain ⟨k1, v1⟩ := a
      have hstep : mergeEntries base ((k1, v1) :: m)
          = mergeEntries (insertEntry k1 (.string v1) base) m := by
        simp [mergeEntries]
      rw [hstep, ih]
      cases hll : lookupLast k m with
      | some r => simp [lookupLast, hll]
      | none =>
          by_cases hk : k1 = k
          · simp [lookupLast, hll, hk, lookupEntry_insertEntry]
          · simp [lookupLast, hll, hk, lookupEntry_insertEntry]

/-- Set followed by get on the same plist path returns the written
value. -/
theorem getValueAt_setValueAt (path : List String) :
    ∀ (doc v doc' : PlistValue), setValueAt doc path v = .ok doc' →
      getValueAt doc' path = .ok v := by
  induction path with
  | nil =>
      intro doc v doc' h
      simp only [setValueAt] at h
      injection h with h
      rw [← h]
      rfl
  | cons k rest ih =>
      intro doc v doc' h
      cases rest with
      | nil =>
          cases doc with
          | dict es =>
              simp only [setValueAt] at h
              injection h with h
              rw [← h]
              simp [getValueAt, lookupEntry_insertEntry]
          | string s => simp [setValueAt] at h
          | integer n => simp [setValueAt] at h
          | boolean b => simp [setValueAt] at h
          | array xs => simp [setValueAt] at h
          | null => simp [setValueAt] at h
      | cons k2 r2 =>
          cases doc with
          | dict es =>
              cases hl : lookupEntry k es with
              | none => simp [setValueAt, hl] at h
              | some v0 =>
                  simp only [setValueAt, hl] at h
                  cases hs : setValueAt v0 (k2 :: r2) v with
                  | error e => rw [hs] at h; simp [Except.map] at h
                  | ok v0' =>
                      rw [hs] at h
                      simp only [Except.map] at h
                      injection h with h
                      rw [← h]
                      simp only [getValueAt, lookupEntry_insertEntry, if_pos rfl]
                      exact ih v0 v v0' hs
          | string s => simp [setValueAt] at h
          | integer n => simp [setValueAt] at h
          | boolean b => simp [setValueAt] at h
          | array xs => simp [setValueAt] at h
          | null => simp [setValueAt] at h

/-- Set followed by get on the same field of the wrapped document
returns the written value; the root key and the raw test type attribute
are untouched. -/
theorem SetXctestrunField_roundtrip (st st' : XctestRun) (field : List String)
    (v : PlistValue) (h : st.SetXctestrunField field v = .ok st') :
    st'.GetXctestrunField field = some v ∧
    st'.rootKey = st.rootKey ∧ st'.testTypeField = st.testTypeField := by
  unfold XctestRun.SetXctestrunField at h
  cases hs : setValueAt st.doc (st.rootKey :: field) v with
  | error e => rw [hs] at h; simp [Except.map] at h
  | ok d =>
      rw [hs] at h
      simp only [Except.map] at h
      injection h with h
      rw [← h]
      refine ⟨?_, rfl, rfl⟩
      unfold XctestRun.GetXctestrunField
      rw [getValueAt_setValueAt _ _ _ _ hs]

/-- The binding of one key inside the EnvironmentVariables field of the
document. -/
def envLookup (st : XctestRun) (k : String) : Option PlistValue :=
  match st.GetXctestrunField ["EnvironmentVariables"] with
  | some (.dict es) => lookupEntry k es
  | _ => none

/-- What one successful nonempty SetTestEnvVars call does: the field
afterwards holds the previous base mapping with the supplied items
merged in, and the rest of the object state is untouched. -/
theorem SetTestEnvVars_spec (st st' : XctestRun) (a : String × String)
    (m' : List (String × String))
    (h : st.SetTestEnvVars (a :: m') = some st') :
    ∃ base, envBase (st.GetXctestrunField ["EnvironmentVariables"]) = some base ∧
      st'.GetXctestrunField ["EnvironmentVariables"]
        = some (.dict (mergeEntries base (a :: m'))) ∧
      st'.rootKey = st.rootKey ∧ st'.testTypeField = st.testTypeField := by
  unfold XctestRun.SetTestEnvVars at h
  rw [if_neg (by simp)] at h
  split at h
  · exact absurd h (by simp)
  · rename_i base he
    split at h
    · rename_i s hset
      injection h with h
      obtain ⟨hget, hroot, htt⟩ := SetXctestrunField_roundtrip st s _ _ hset
      exact ⟨base, he, by rw [← h]; exact hget, by rw [← h]; exact hroot,
             by rw [← h]; exact htt⟩
    · exact absurd h (by simp)

/-- C6. Environment variables merge rather than replace: after setting
the mapping m1 and then the mapping m2, a key bound by m2 reads back its
m2 value, and a key bound by m1 and untouched by m2 still reads back its
m1 value. -/
theorem SetTestEnvVars_merges (st st1 st2 : XctestRun)
    (a1 : String × String) (m1' : List (String × String))
    (a2 : String × String) (m2' : List (String × String))
    (k v : String)
    (h1 : st.SetTestEnvVars (a1 :: m1') = some st1)
    (h2 : st1.SetTestEnvVars (a2 :: m2') = some st2) :
    (lookupLast k (a2 :: m2') = some v → envLookup st2 k = some (.string v)) ∧
    (lookupLast k (a2 :: m2') = none → lookupLast k (a1 :: m1') = some v →
      envLookup st2 k = some (.string v)) := by
  obtain ⟨base, _, hget1, _, _⟩ := SetTestEnvVars_spec st st1 a1 m1' h1
  obtain ⟨base2, hb2, hget2, _, _⟩ := SetTestEnvVars_spec st1 st2 a2 m2' h2
  rw [hget1] at hb2
  have hne : mergeEntries base (a1 :: m1') ≠ [] := by
    have h0 : insertEntry a1.1 (.string a1.2) base ≠ [] := insertEntry_ne_nil _ _ _
    simpa [mergeEntries] using mergeEntries_ne_nil m1' _ h0
  have hb2' : base2 = mergeEntries base (a1 :: m1') := by
    simp only [envBase, pyFalsy] at hb2
    rw [if_neg (by simpa using hne)] at hb2
    have hb2c : some (mergeEntries base (a1 :: m1')) = some base2 := hb2
    injection hb2c with hb2c
    exact hb2c.symm
  subst hb2'
  have hlook : envLookup st2 k
      = lookupEntry k (mergeEntries (mergeEntries base (a1 :: m1')) (a2 :: m2')) := by
    unfold envLookup
    rw [hget2]
  constructor
  · intro hlk
    rw [hlook, lookupEntry_mergeEntries, hlk]
  · intro hlk2 hlk1
    rw [hlook, lookupEntry_mergeEntries, hlk2, lookupEntry_mergeEntries, hlk1]

/-- Fresh document used for the C6 witness. -/
def c6st0 : XctestRun := ⟨.dict [("T", .dict [])], "T", some .xctest⟩

/-- State after setting the first environment mapping in the C6
witness. -/
def c6st1 : XctestRun :=
  ⟨.dict [("T", .dict [("EnvironmentVariables", .dict [("A", .string "1")])])], "T", some .xctest⟩

/-- State after setting the second environment mapping in the C6
witness. -/
def c6st2 : XctestRun :=
  ⟨.dict [("T", .dict [("EnvironmentVariables",
      .dict [("A", .string "1"), ("B", .string "2")])])], "T", some .xctest⟩

/-- Witness for C6: setting A to 1 and then B to 2 leaves both bindings
present. -/
theorem SetTestEnvVars_merges_witness :
    c6st0.SetTestEnvVars [("A", "1")] = some c6st1 ∧
    c6st1.SetTestEnvVars [("B", "2")] = some c6st2 ∧
    envLookup c6st2 "A" = some (.string "1") ∧
    envLookup c6st2 "B" = some (.string "2") :=
  ⟨rfl, rfl,
   (SetTestEnvVars_merges c6st0 c6st1 c6st2 ("A", "1") [] ("B", "2") [] "A" "1" rfl rfl).2 rfl rfl,
   (SetTestEnvVars_merges c6st0 c6st1 c6st2 ("A", "1") [] ("B", "2") [] "B" "2" rfl rfl).1 rfl⟩

/-- C7. Test arguments replace wholesale: after setting the argument
list a1 and then the nonempty list a2, the CommandLineArguments field
holds exactly a2. -/
theorem SetTestArgs_replaces (st st1 st2 : XctestRun) (a1 a2 : List String)
    (ha2 : a2 ≠ [])
    (_h1 : st.SetTestArgs a1 = .ok st1) (h2 : st1.SetTestArgs a2 = .ok st2) :
    st2.GetXctestrunField ["CommandLineArguments"] = some (.array (a2.map .string)) := by
  unfold XctestRun.SetTestArgs at h2
  rw [if_neg (by simpa using ha2)] at h2
  exact (SetXctestrunField_roundtrip st1 st2 _ _ h2).1

/-- Fresh document used for the C7 witness. -/
def c7st0 : XctestRun := ⟨.dict [("T", .dict [])], "T", some .xctest⟩

/-- State after the first SetTestArgs call of the C7 witness. -/
def c7st1 : XctestRun :=
  ⟨.dict [("T", .dict [("CommandLineArguments", .array [.string "x"])])], "T", some .xctest⟩

/-- State after the second SetTestArgs call of the C7 witness. -/
def c7st2 : XctestRun :=
  ⟨.dict [("T", .dict [("CommandLineArguments", .array [.string "y"])])], "T", some .xctest⟩

/-- Witness for C7 at the concrete lists x and y. -/
theorem SetTestArgs_replaces_witness :
    c7st0.SetTestArgs ["x"] = .ok c7st1 ∧
    c7st1.SetTestArgs ["y"] = .ok c7st2 ∧
    ["y"] ≠ ([] : List String) ∧
    c7st2.GetXctestrunField ["CommandLineArguments"] = some (.array [.string "y"]) :=
  ⟨rfl, rfl, by simp,
   SetTestArgs_replaces c7st0 c7st1 c7st2 ["x"] ["y"] (by simp) rfl rfl⟩

/-- C10. In non-UI modes SetAppUnderTestArgs writes the same
CommandLineArguments field as SetTestArgs, so the app-under-test call
overwrites the test-argument call: after SetTestArgs a1 and
SetAppUnderTestArgs a2 the field holds exactly a2. -/
theorem SetAppUnderTestArgs_same_field (st st1 st2 : XctestRun) (a1 a2 : List String)
    (htt : st.testTypeField ≠ some TestType.xcuitest)
    (ha1 : a1 ≠ []) (ha2 : a2 ≠ [])
    (h1 : st.SetTestArgs a1 = .ok st1) (h2 : st1.SetAppUnderTestArgs a2 = .ok st2) :
    st2.GetXctestrunField ["CommandLineArguments"] = some (.array (a2.map .string)) := by
  have htt1 : st1.testTypeField = st.testTypeField := by
    unfold XctestRun.SetTestArgs at h1
    rw [if_neg (by simpa using ha1)] at h1
    exact (SetXctestrunField_roundtrip st st1 _ _ h1).2.2
  unfold XctestRun.SetAppUnderTestArgs at h2
  rw [if_neg (by simpa using ha2)] at h2
  rw [if_neg (by rw [htt1]; exact htt)] at h2
  exact (SetXctestrunField_roundtrip st1 st2 _ _ h2).1

/-- Witness for C10 at concrete lists: the second call leaves only y. -/
theorem SetAppUnderTestArgs_same_field_witness :
    c7st0.testTypeField ≠ some TestType.xcuitest ∧
    c7st0.SetTestArgs ["x"] = .ok c7st1 ∧
    c7st1.SetAppUnderTestArgs ["y"] = .ok c7st2 ∧
    c7st2.GetXctestrunField ["CommandLineArguments"] = some (.array [.string "y"]) :=
  ⟨by simp [c7st0], rfl, rfl,
   SetAppUnderTestArgs_same_field c7st0 c7st1 c7st2 ["x"] ["y"]
     (by simp [c7st0]) (by simp) (by simp) rfl rfl⟩

/-- C8. For an object constructed without an explicit test type, the
derived test_type infers the UI mode exactly when the document has a
UITargetAppPath field and the unit mode otherwise, and the inferred
value is memoized: a second read on the post-read state returns the same
value whatever the document then contains. -/
theorem testType_infers_and_memoizes (st : XctestRun) (d : PlistValue)
    (h : st.testTypeField = none) :
    ((st.testType.1 = TestType.xcuitest) ↔ st.HasXctestrunField ["UITargetAppPath"] = true) ∧
    ((st.testType.1 = TestType.xctest) ↔ st.HasXctestrunField ["UITargetAppPath"] = false) ∧
    (XctestRun.testType
        { doc := d, rootKey := st.testType.2.rootKey,
          testTypeField := st.testType.2.testTypeField }).1 = st.testType.1 := by
  cases hh : st.HasXctestrunField ["UITargetAppPath"] <;>
    simp [XctestRun.testType, h, hh]

/-- Document with a UITargetAppPath field used for the C8 witness. -/
def c8st : XctestRun :=
  ⟨.dict [("K", .dict [("UITargetAppPath", .string "/a/My.app")])], "K", none⟩

/-- Witness for C8: the inference sees the UITargetAppPath field, and
the memoized value survives replacing the document by one lacking the
field. -/
theorem testType_infers_and_memoizes_witness :
    c8st.testTypeField = none ∧
    (((c8st.testType.1 = TestType.xcuitest) ↔
        c8st.HasXctestrunField ["UITargetAppPath"] = true) ∧
     ((c8st.testType.1 = TestType.xctest) ↔
        c8st.HasXctestrunField ["UITargetAppPath"] = false) ∧
     (XctestRun.testType
         { doc := .dict [("K", .dict [])], rootKey := c8st.testType.2.rootKey,
           testTypeField := c8st.testType.2.testTypeField }).1 = c8st.testType.1) :=
  ⟨rfl, testType_infers_and_memoizes c8st (.dict [("K", .dict [])]) rfl⟩

/-- C3. Resolving a path that does not resolve in the document: the
plist layer fails with a lookup error, GetXctestrunField surfaces this
as None, and HasXctestrunField returns false (it is a total boolean
function, so it never raises); any path that does resolve, even to an
empty or false value, is returned as some value, distinguishable from
None. -/
theorem GetXctestrunField_never_set (st : XctestRun) (field : List String)
    (st' : XctestRun) (f' : List String) (v : PlistValue)
    (h : exceptIsOk (getValueAt st.doc (st.rootKey :: field)) = false)
    (h' : getValueAt st'.doc (st'.rootKey :: f') = .ok v) :
    st.GetXctestrunField field = none ∧
    st.HasXctestrunField field = false ∧
    st'.GetXctestrunField f' = some v ∧ some v ≠ (none : Option PlistValue) := by
  refine ⟨?_, ?_, ?_, by simp⟩
  · unfold XctestRun.GetXctestrunField
    cases hg : getValueAt st.doc (st.rootKey :: field) with
    | ok w => rw [hg] at h; simp [exceptIsOk] at h
    | error e => rfl
  · unfold XctestRun.HasXctestrunField
    cases hg : getValueAt st.doc (st.rootKey :: field) with
    | ok w => rw [hg] at h; simp [exceptIsOk] at h
    | error e => rfl
  · unfold XctestRun.GetXctestrunField
    rw [h']

/-- Fresh document with no fields, for the C3 witness. -/
def c3st : XctestRun := ⟨.dict [("MyTests", .dict [])], "MyTests", none⟩

/-- Document holding an empty dict and a false value, for the C3
distinguishability witness. -/
def c3stP : XctestRun :=
  ⟨.dict [("MyTests", .dict [("EnvironmentVariables", .dict [])])], "MyTests", none⟩

/-- Witness for C3 at a concrete never-set field and a concrete field
present with an empty value. -/
theorem GetXctestrunField_never_set_witness :
    exceptIsOk (getValueAt c3st.doc (c3st.rootKey :: ["TestBundlePath"])) = false ∧
    getValueAt c3stP.doc (c3stP.rootKey :: ["EnvironmentVariables"]) = .ok (.dict []) ∧
    (c3st.GetXctestrunField ["TestBundlePath"] = none ∧
     c3st.HasXctestrunField ["TestBundlePath"] = false ∧
     c3stP.GetXctestrunField ["EnvironmentVariables"] = some (.dict []) ∧
     some (PlistValue.dict []) ≠ (none : Option PlistValue)) :=
  ⟨rfl, rfl,
   GetXctestrunField_never_set c3st ["TestBundlePath"] c3stP ["EnvironmentVariables"]
     (.dict []) rfl rfl⟩

/-- C5. Pairing the standalone logic test mode with any sdk other than
the simulator makes construction fail with the invalid-argument error,
and the constructor performs no filesystem mutation. -/
theorem init_logicTest_requires_simulator (aut : Option String) (tb : String)
    (sdk : SDK) (signing : Option (List (String × String))) (workDir : Option String)
    (h : sdk ≠ SDK.iphonesimulator) :
    (XctestRunFactory.init aut tb sdk TestType.logicTest signing workDir).result
      = .error (.illegalArgument logicTestSdkMsg) ∧
    (XctestRunFactory.init aut tb sdk TestType.logicTest signing workDir).fsMutations = [] := by
  cases sdk with
  | iphonesimulator => exact absurd rfl h
  | iphoneos => exact ⟨rfl, rfl⟩

/-- Witness for C5 at the device sdk. -/
theorem init_logicTest_requires_simulator_witness :
    SDK.iphoneos ≠ SDK.iphonesimulator ∧
    ((XctestRunFactory.init none "/b/T.xctest" SDK.iphoneos TestType.logicTest
        none none).result = .error (.illegalArgument logicTestSdkMsg) ∧
     (XctestRunFactory.init none "/b/T.xctest" SDK.iphoneos TestType.logicTest
        none none).fsMutations = []) :=
  ⟨by decide, init_logicTest_requires_simulator none "/b/T.xctest" SDK.iphoneos
     none none (by decide)⟩

/-- C9 evaluation at the failing input: supplying a nonempty signing
options mapping on the simulator sdk succeeds and the options are
ignored (stored empty), but nothing is logged, because the source logs
the info message only when the supplied options are falsy; the same
constructor call with no signing options does log the message. -/
theorem init_simulator_signing_eval :
    (XctestRunFactory.init none "/b/T.xctest" SDK.iphonesimulator TestType.xctest
        (some [("xctrunner_app_provisioning_profile", "prof")]) none).result
      = .ok { appUnderTestDir := none, testBundleDir := "/b/T.xctest", testName := "T",
              sdk := .iphonesimulator, testType := .xctest, signingOptions := [],
              workDir := none } ∧
    (XctestRunFactory.init none "/b/T.xctest" SDK.iphonesimulator TestType.xctest
        (some [("xctrunner_app_provisioning_profile", "prof")]) none).log = [] ∧
    (XctestRunFactory.init none "/b/T.xctest" SDK.iphonesimulator TestType.xctest
        none none).log = [signingInfoMsg] ∧
    (XctestRunFactory.init none "/b/T.xctest" SDK.iphonesimulator TestType.xctest
        (some [("xctrunner_app_provisioning_profile", "prof")]) none).fsMutations = [] :=
  ⟨rfl, rfl, rfl, rfl⟩

/-- C2 (amended). Artifact scan policy of the build-based pipelines:
finding zero generated xctestrun files is a generation error in both
the UI and the unit pipeline, and for the UI pipeline finding zero or
more than one runner app is a generation error; but when more than one
xctestrun file matches, the pipelines do not error: generation proceeds
using the first match (the result does not depend on the extra
matches). -/
theorem generation_scan_policy (f : XctestRunFactory) (env : BuildEnv)
    (serialize : PlistValue → String) (autd x : String) (rest : List String) :
    (f.testType = TestType.xctest → f.appUnderTestDir = some autd →
      env.generatedXctestrunFiles = [] →
      GenerateXctestrun f env serialize = .error (.xctestrunError noXctestrunMsg)) ∧
    (f.testType = TestType.xcuitest → env.generatedXctrunnerApps.length = 1 →
      env.generatedXctestrunFiles = [] →
      GenerateXctestrun f env serialize = .error (.xctestrunError noXctestrunMsg)) ∧
    (f.testType = TestType.xcuitest → env.generatedXctrunnerApps = [] →
      GenerateXctestrun f env serialize = .error (.xctestrunError noRunnerMsg)) ∧
    (f.testType = TestType.xcuitest → env.generatedXctrunnerApps.length > 1 →
      GenerateXctestrun f env serialize = .error (.xctestrunError multiRunnerMsg)) ∧
    (GenerateXctestrun f { env with generatedXctestrunFiles := x :: rest } serialize
      = GenerateXctestrun f { env with generatedXctestrunFiles := [x] } serialize) := by
  refine ⟨?_, ?_, ?_, ?_, ?_⟩
  · intro ht ha hf
    simp [GenerateXctestrun, genPipeline, genXctest, ht, ha, hf]
  · intro ht hlen hf
    have h1 : env.generatedXctrunnerApps.isEmpty = false := by
      rw [List.isEmpty_eq_false]
      intro hc
      rw [hc] at hlen
      simp at hlen
    have h2 : ¬ (env.generatedXctrunnerApps.length > 1) := by omega
    simp [GenerateXctestrun, genPipeline, genXcuitest, ht, hf, h1, h2]
  · intro ht happ
    simp [GenerateXctestrun, genPipeline, genXcuitest, ht, happ]
  · intro ht hgt
    have h1 : env.generatedXctrunnerApps.isEmpty = false := by
      rw [List.isEmpty_eq_false]
      intro hc
      rw [hc] at hgt
      simp at hgt
    simp [GenerateXctestrun, genPipeline, genXcuitest, ht, h1, hgt]
  · cases htt : f.testType <;>
      simp [GenerateXctestrun, genPipeline, genXcuitest, genXctest, genLogicTest,
        genWorkDir, genTestRoot, htt]

/-- A UI-driven generation run whose build products tree holds two
generated xctestrun files. -/
def c2cxFactory : XctestRunFactory :=
  { appUnderTestDir := some "/apps/My.app"
    testBundleDir := "/b/T.xctest"
    testName := "T"
    sdk := .iphonesimulator
    testType := .xcuitest
    signingOptions := []
    workDir := some "/w" }

/-- External collaborator results with two matching configuration
documents. -/
def c2cxEnv : BuildEnv :=
  { mkdtempResult := "/tmp/t"
    generatedXctrunnerApps := ["/dd/Build/Products/Debug-iphonesimulator/T-Runner.app"]
    generatedXctestrunFiles := ["/dd/a.xctestrun", "/dd/b.xctestrun"]
    buildDocContent := .dict [("T", .dict [("TestingEnvironmentVariables",
        .dict [("IDEiPhoneInternalTestBundleName", .string "T.xctest")])])]
    xctestToolPath := fun _ => "/x"
    sdkPlatformPath := fun _ => "/p" }

/-- C2 counterexample: with two matching generated xctestrun files the
UI pipeline does not raise a generation error; generation completes
successfully, so "more than one match is an error" is false of the
code (only the zero-match case is checked for configuration
documents). -/
theorem multiple_xctestrun_files_not_error :
    c2cxEnv.generatedXctestrunFiles.length = 2 ∧
    exceptIsOk (GenerateXctestrun c2cxFactory c2cxEnv (fun _ => "")) = true :=
  ⟨rfl, rfl⟩

/-- A unit-mode generation run whose build products tree holds no
generated xctestrun file. -/
def c2wFactory : XctestRunFactory :=
  { appUnderTestDir := some "/apps/My.app"
    testBundleDir := "/b/T.xctest"
    testName := "T"
    sdk := .iphonesimulator
    testType := .xctest
    signingOptions := []
    workDir := some "/w" }

/-- External collaborator results with no matching configuration
document. -/
def c2wEnv : BuildEnv :=
  { mkdtempResult := "/tmp/t"
    generatedXctrunnerApps := []
    generatedXctestrunFiles := []
    buildDocContent := .dict [("T", .dict [])]
    xctestToolPath := fun _ => "/x"
    sdkPlatformPath := fun _ => "/p" }

/-- Witness for the amended C2 theorem: a zero-match scan makes the
unit pipeline fail with the generation error. -/
theorem generation_scan_policy_witness :
    c2wFactory.testType = TestType.xctest ∧
    c2wFactory.appUnderTestDir = some "/apps/My.app" ∧
    c2wEnv.generatedXctestrunFiles = [] ∧
    GenerateXctestrun c2wFactory c2wEnv (fun _ => "")
      = .error (.xctestrunError noXctestrunMsg) :=
  ⟨rfl, rfl, rfl,
   (generation_scan_policy c2wFactory c2wEnv (fun _ => "") "/apps/My.app" "" []).1
     rfl rfl rfl⟩

/-- The standalone logic generation run of C4: bundle MyTests.xctest,
simulator target, no app under test. -/
def logicFactory : XctestRunFactory :=
  { appUnderTestDir := none
    testBundleDir := "/prebuilt/MyTests.xctest"
    testName := "MyTests"
    sdk := .iphonesimulator
    testType := .logicTest
    signingOptions := []
    workDir := some "/w" }

/-- C4. Standalone logic generation for the bundle MyTests.xctest on a
simulator with no app under test produces a document whose root key is
MyTests (the bundle base name before the first dot), whose
TestBundlePath is the relocated bundle under the canonical root, whose
TestHostPath is the xctest tool of the sdk, and whose
TestingEnvironmentVariables holds both dyld variables pointing at the
sdk platform developer frameworks directory. -/
theorem logic_generation_fields (env : BuildEnv) (serialize : PlistValue → String) :
    (GenerateXctestrun logicFactory env serialize).map (fun r =>
      (r.obj.rootKey,
       r.obj.GetXctestrunField ["TestBundlePath"],
       r.obj.GetXctestrunField ["TestHostPath"],
       r.obj.GetXctestrunField ["TestingEnvironmentVariables", "DYLD_FRAMEWORK_PATH"],
       r.obj.GetXctestrunField ["TestingEnvironmentVariables", "DYLD_LIBRARY_PATH"]))
    = .ok ("MyTests",
       some (.string "/w/TEST_ROOT/MyTests.xctest"),
       some (.string (env.xctestToolPath SDK.iphonesimulator)),
       some (.string (pathJoin (env.sdkPlatformPath SDK.iphonesimulator)
         "Developer/Library/Frameworks")),
       some (.string (pathJoin (env.sdkPlatformPath SDK.iphonesimulator)
         "Developer/Library/Frameworks"))) := rfl
